import Mathlib

/-!
Verification of the peakinfer-action GitHub Action (src/index.ts, v1.9.6)
against its natural-language specification.

The TypeScript source is shallowly embedded: JS numbers that only ever hold
non-negative integer counts become `Nat`; optional (`?`) fields become
`Option`; `undefined`-dropping of `JSON.stringify` is modelled by omitting
list entries; the single HTTP round trip is modelled by an explicit
response value; the orchestrator `run` becomes a pure function from its
inputs and the environment (file tree, service response, stats response)
to the observable trace (comments posted, `verdict` output, failed flag).
-/

namespace PeakInfer

/-! ## Configuration constants (src/index.ts lines 368-376) -/

/-- `SUPPORTED_EXTENSIONS` — the fixed extension allowlist. -/
def SUPPORTED_EXTENSIONS : List String :=
  [".ts", ".tsx", ".js", ".jsx", ".mjs", ".cjs",
   ".py", ".go", ".java", ".kt", ".rs", ".rb"]

/-- `SKIP_DIRS` — the fixed directory-name denylist. -/
def SKIP_DIRS : List String :=
  ["node_modules", ".git", "dist", "build", ".next",
   "__pycache__", "vendor", ".venv", "venv"]

/-! ## Data model (src/index.ts lines 382-509) -/

inductive Severity where
  | critical
  | warning
  | info
deriving DecidableEq, Repr

structure Issue where
  type : String
  severity : Severity
  headline : String
  evidence : String
  suggestedFix : Option String
deriving DecidableEq, Repr

structure InferencePoint where
  id : String
  file : String
  line : Nat
  provider : String
  model : String
  issues : List Issue
deriving DecidableEq, Repr

structure DriftDetection where
  id : String
  file : String
  line : Nat
  type : String
  declared : String
  observed : String
  severity : Severity
deriving DecidableEq, Repr

structure BenchmarkComparison where
  pointId : String
  model : String
  yourP95 : Nat
  benchmarkP95 : Nat
  gapPercent : Nat
  gapDescription : String
deriving DecidableEq, Repr

structure Insight where
  type : String
  severity : String
  title : String
  description : String
deriving DecidableEq, Repr

structure Summary where
  totalInferencePoints : Nat
  totalFiles : Nat
  providers : List String
  models : List String
  overallReliability : String
  totalOptimizations : Nat
  criticalOptimizations : Nat
deriving DecidableEq, Repr

/-- `AnalysisResponse['analysis']`. `drifts` and `benchmarkComparisons` are
optional in the interface; `inferencePoints`, `insights`, `summary` and
`layersUsed` are required fields. -/
structure Analysis where
  inferencePoints : List InferencePoint
  drifts : Option (List DriftDetection)
  benchmarkComparisons : Option (List BenchmarkComparison)
  insights : List Insight
  summary : Summary
  layersUsed : List String
deriving DecidableEq, Repr

structure Credits where
  consumed : Nat
  remaining : Nat
  expiringSoon : Nat
deriving DecidableEq, Repr

structure OrgStats where
  prsAnalyzed : Nat
  criticalCaught : Nat
  estimatedSavings : Nat
deriving DecidableEq, Repr

inductive Verdict where
  | PASS
  | OK
  | REVIEW
  | BLOCK
  | PAUSED
  | SKIP
  | ERROR
deriving DecidableEq, Repr

/-! ## Verdict logic (src/index.ts lines 515-539) -/

/-- `VERDICT_TEXT` record. -/
def VERDICT_TEXT : Verdict → String
  | .PASS => "Safe to Merge"
  | .OK => "Mostly Good"
  | .REVIEW => "Review Recommended"
  | .BLOCK => "Changes Requested"
  | .PAUSED => "Analysis Paused"
  | .SKIP => "No LLM Code"
  | .ERROR => "Analysis Failed"

/-- Template interpolation of a `Verdict` value (its enum name). -/
def verdictName : Verdict → String
  | .PASS => "PASS"
  | .OK => "OK"
  | .REVIEW => "REVIEW"
  | .BLOCK => "BLOCK"
  | .PAUSED => "PAUSED"
  | .SKIP => "SKIP"
  | .ERROR => "ERROR"

/-- `calculateVerdict` (src/index.ts lines 525-539), translated clause by
clause from the source. -/
def calculateVerdict (criticalCount warningCount : Nat)
    (hasLLMCode creditsExhausted hasError : Bool) : Verdict :=
  if hasError then .ERROR
  else if creditsExhausted then .PAUSED
  else if !hasLLMCode then .SKIP
  else if criticalCount ≥ 2 then .BLOCK
  else if criticalCount = 1 ∨ warningCount > 5 then .REVIEW
  else if warningCount ≥ 1 ∧ warningCount ≤ 5 then .OK
  else .PASS

/-- Spec-side classifier, written from the words of spec §4.3 (the
seven numbered first-match rules), to be compared with `calculateVerdict`. -/
def classifySpec (criticalCount warningCount : Nat)
    (hasAnyInferencePoint creditsExhausted hadTransportError : Bool) : Verdict :=
  if hadTransportError then .ERROR
  else if creditsExhausted then .PAUSED
  else if hasAnyInferencePoint = false then .SKIP
  else if 2 ≤ criticalCount then .BLOCK
  else if criticalCount = 1 ∨ 5 < warningCount then .REVIEW
  else if 1 ≤ warningCount ∧ warningCount ≤ 5 then .OK
  else .PASS

/-! ## File collection (src/index.ts lines 545-575)

The filesystem visible to `collectFiles` is modelled as a tree of entries:
a file carries its name, its size in bytes, and `some content` when it can
be read as text (`none` models a file whose `readFileSync` throws); a
directory carries its name and its listing in `readdirSync` order. -/

inductive FsEntry where
  | file (name : String) (size : Nat) (content : Option String) : FsEntry
  | dir (name : String) (entries : List FsEntry) : FsEntry
deriving Repr

structure FileInfo where
  path : String
  content : String
deriving DecidableEq, Repr

/-- Node's `path.join(dir, entry)` for a plain entry name (no
normalization is needed because `readdirSync` names contain no separator). -/
def pathJoin (dir entry : String) : String :=
  dir ++ "/" ++ entry

/-- Node's `path.extname` on a bare entry name: the suffix from the last
dot, or the empty string when there is no dot or the only dot is the
leading character of the name. -/
def extname (name : String) : String :=
  let rev := name.data.reverse
  let afterDot := rev.takeWhile (fun c => c ≠ '.')
  if afterDot.length = rev.length then ""
  else if afterDot.length + 1 = rev.length then ""
  else String.mk ((afterDot ++ ['.']).reverse)

/-- The `stat.isFile()` branch of the traversal loop: push the file when
its extension is in the allowlist and its size is strictly under 100,000
bytes, skipping silently when `readFileSync` throws (`content = none`). -/
def pushFile (dir name : String) (size : Nat) (content : Option String)
    (files : List FileInfo) : List FileInfo :=
  if SUPPORTED_EXTENSIONS.contains (extname name) ∧ size < 100000 then
    match content with
    | some c => files ++ [⟨pathJoin dir name, c⟩]
    | none => files
  else files

/-- The body of `collectFiles`' traversal: the `for` loop over one
directory listing, threading the accumulated `files` array.  The
per-iteration guard `if (files.length >= maxFiles) break` and the
function-entry guard `if (files.length >= maxFiles) return files` are both
reflected by the cap check at each entry; recursion into a subdirectory
re-checks the cap exactly as the recursive `collectFiles` call does. -/
def collectWalk (dir : String) (es : List FsEntry) (files : List FileInfo)
    (maxFiles : Nat) : List FileInfo :=
  match es with
  | [] => files
  | .file name size content :: rest =>
    if files.length ≥ maxFiles then files
    else collectWalk dir rest (pushFile dir name size content files) maxFiles
  | .dir name entries :: rest =>
    if files.length ≥ maxFiles then files
    else
      let files' :=
        if SKIP_DIRS.contains name then files
        else collectWalk (pathJoin dir name) entries files maxFiles
      collectWalk dir rest files' maxFiles

/-- `collectFiles(dir, files = [], maxFiles = 50)`: `root = none` models
`existsSync(dir)` returning false; otherwise `root` is the listing of the
traversal root. -/
def collectFiles (root : Option (List FsEntry)) (dir : String)
    (maxFiles : Nat) : List FileInfo :=
  match root with
  | none => []
  | some entries => collectWalk dir entries [] maxFiles

/-- Spec-side enumeration, written from the words of spec §4.1/§8: every
file reachable from the root without entering a denylisted directory,
whose extension is in the allowlist, whose size is strictly under 100,000
bytes, and which is readable.  `collectFiles` is compared against it. -/
def goodFile (dir name : String) (size : Nat)
    (content : Option String) : List FileInfo :=
  if SUPPORTED_EXTENSIONS.contains (extname name) ∧ size < 100000 then
    match content with
    | some c => [⟨pathJoin dir name, c⟩]
    | none => []
  else []

def goodWalk (dir : String) (es : List FsEntry) : List FileInfo :=
  match es with
  | [] => []
  | .file name size content :: rest =>
    goodFile dir name size content ++ goodWalk dir rest
  | .dir name entries :: rest =>
    (if SKIP_DIRS.contains name then []
     else goodWalk (pathJoin dir name) entries) ++ goodWalk dir rest

/-- Spec-side enumeration at the traversal root. -/
def goodFiles (root : Option (List FsEntry)) (dir : String) : List FileInfo :=
  match root with
  | none => []
  | some entries => goodWalk dir entries

/-! ## Layer configuration and request payload (src/index.ts lines 404-409,
596-619, 997-1014) -/

structure RuntimeLayer where
  enabled : Bool
  source : Option String
  apiKey : Option String
  eventsFile : Option String
deriving DecidableEq, Repr

structure BenchmarksLayer where
  enabled : Bool
  framework : String
deriving DecidableEq, Repr

structure EvalsLayer where
  enabled : Bool
  source : Option String
  apiKey : Option String
deriving DecidableEq, Repr

/-- `LayerConfig`.  The interface also carries `code: { enabled: true }`,
a constant with no parameters, which is never serialized into the request
payload; it is therefore not represented as data here. -/
structure LayerConfig where
  runtime : RuntimeLayer
  benchmarks : BenchmarksLayer
  evals : EvalsLayer
deriving DecidableEq, Repr

/-- The parameter object serialized for one enabled layer. -/
inductive LayerParams where
  | runtime (source apiKey eventsFile : Option String)
  | benchmarks (framework : String)
  | evals (source apiKey : Option String)
deriving DecidableEq, Repr

/-- The `layers` object of the request body built in `callAnalysisAPI`
(lines 604-617), after `JSON.stringify`: a key bound to `undefined` (the
ternary's else branch for a disabled layer) is dropped from the serialized
object, so the payload is the association list of the enabled layers'
keys only. -/
def layersPayload (layers : LayerConfig) : List (String × LayerParams) :=
  (if layers.runtime.enabled then
    [("runtime", LayerParams.runtime layers.runtime.source
        layers.runtime.apiKey layers.runtime.eventsFile)]
   else [])
  ++ (if layers.benchmarks.enabled then
    [("benchmarks", LayerParams.benchmarks layers.benchmarks.framework)]
   else [])
  ++ (if layers.evals.enabled then
    [("evals", LayerParams.evals layers.evals.source layers.evals.apiKey)]
   else [])

/-! ## API client response handling (src/index.ts lines 581-629, 1043) -/

/-- What the orchestrator inspects of the JSON body parsed by
`response.json()`: the `error` / `code` / `hint` discriminating fields,
and the `analysis` / `credits` fields of a shape-conforming success body
(`analysis = none` models a body whose `analysis` member is missing, so
that the success path's first field access throws). -/
structure ParsedData where
  errorVal : Option String
  code : Option String
  hint : Option String
  analysis : Option Analysis
  credits : Option Credits
deriving Repr

/-- The transport response of the single `fetch`: the `response.ok` status
flag and the parsed JSON body (`none` models `response.json()` throwing on
a body that is not valid JSON). -/
structure HttpResponse where
  ok : Bool
  body : Option ParsedData
deriving Repr

/-- `callAnalysisAPI`'s response handling (lines 622-628).  `.error ()`
models the exception from `response.json()` propagating to the caller.
The source returns `data as ErrorResponse` when `!response.ok` and
`data as AnalysisResponse` otherwise — both branches return the same
runtime value `data`, because the casts are type-level only; the branch
on `resp.ok` below is kept to mirror that structure. -/
def callAnalysisAPI (resp : HttpResponse) : Except Unit ParsedData :=
  match resp.body with
  | none => .error ()
  | some data => if resp.ok = false then .ok data else .ok data

/-- The branch the orchestrator's response handling takes (src/index.ts
lines 1043-1084): the discriminator is `'error' in response`, then
`response.code === 'CREDIT_EXHAUSTED'`. -/
inductive ApiBranch where
  | thrown
  | creditExhausted
  | apiError
  | success
deriving DecidableEq, Repr

def runApiBranch (resp : HttpResponse) : ApiBranch :=
  match callAnalysisAPI resp with
  | .error _ => .thrown
  | .ok data =>
    match data.errorVal with
    | some _ =>
      if data.code = some "CREDIT_EXHAUSTED" then .creditExhausted else .apiError
    | none => .success

/-! ## PR comment generation (src/index.ts lines 711-941) -/

structure IssueCounts where
  critical : Nat
  warnings : Nat
deriving DecidableEq, Repr

/-- `countIssues` (lines 711-723): the two nested loops incrementing the
counters, as folds. -/
def countIssues (inferencePoints : List InferencePoint) : IssueCounts :=
  inferencePoints.foldl (fun acc point =>
    point.issues.foldl (fun acc issue =>
      if issue.severity = .critical then { acc with critical := acc.critical + 1 }
      else if issue.severity = .warning then { acc with warnings := acc.warnings + 1 }
      else acc) acc) ⟨0, 0⟩

/-- `renderLayerStatus` (lines 725-728). -/
def renderLayerStatus (layersUsed : List String) : String :=
  let check := fun layer => if layersUsed.contains layer then "✓" else "○"
  "Code " ++ check "code" ++ " | Runtime " ++ check "runtime" ++
    " | Benchmarks " ++ check "benchmarks" ++ " | Evals " ++ check "evals"

/-- One of the two scanning loops of `findTopIssue`: the first issue of
the given severity, in inference-point order then issue order, paired with
its rendered `file:line` location. -/
def findIssueWith (sev : Severity) (points : List InferencePoint) :
    Option (Issue × String) :=
  points.findSome? (fun point =>
    (point.issues.find? (fun issue => decide (issue.severity = sev))).map
      (fun issue => (issue, point.file ++ ":" ++ toString point.line)))

/-- `findTopIssue` (lines 869-885): first critical anywhere, else first
warning. -/
def findTopIssue (points : List InferencePoint) : Option (Issue × String) :=
  match findIssueWith .critical points with
  | some r => some r
  | none => findIssueWith .warning points

structure EnhancementPrompt where
  layer : String
  message : String
  workflowSnippet : String
  docsUrl : String
deriving DecidableEq, Repr

/-- `getEnhancementPrompts` (lines 672-705). -/
def getEnhancementPrompts (layersUsed : List String)
    (hasRecommendations : Bool) : List EnhancementPrompt :=
  (if ¬ layersUsed.contains "runtime" then
    [{ layer := "Runtime",
       message := "Detect drift between code and actual behavior",
       workflowSnippet := "runtime-source: helicone\nruntime-api-key: $\x7b\x7b secrets.HELICONE_API_KEY \x7d\x7d",
       docsUrl := "https://peakinfer.com/docs/runtime" }]
   else [])
  ++ (if ¬ layersUsed.contains "benchmarks" then
    [{ layer := "Benchmarks",
       message := "Compare to InferenceMAX benchmarks",
       workflowSnippet := "include-benchmarks: true",
       docsUrl := "https://peakinfer.com/docs/benchmarks" }]
   else [])
  ++ (if ¬ layersUsed.contains "evals" ∧ hasRecommendations then
    [{ layer := "Evals",
       message := "Gate recommendations by quality scores",
       workflowSnippet := "evals-source: braintrust\nevals-api-key: $\x7b\x7b secrets.BRAINTRUST_API_KEY \x7d\x7d",
       docsUrl := "https://peakinfer.com/docs/evals" }]
   else [])

/-- Lines 740-745: the verdict header and layer-status block. -/
def headerSection (verdict : Verdict) (layersUsed : List String) : List String :=
  ["## [" ++ verdictName verdict ++ "] PeakInfer: " ++ VERDICT_TEXT verdict,
   "",
   "**Layers:** " ++ renderLayerStatus layersUsed,
   ""]

/-- Lines 747-754: the one-line summary. -/
def summarySection (summary : Summary) (issueCounts : IssueCounts)
    (driftCount : Nat) : List String :=
  if summary.totalInferencePoints = 0 then
    ["No LLM inference points detected in this PR.", ""]
  else
    ["**Found:** " ++ toString summary.totalInferencePoints ++
       " inference points | " ++ toString issueCounts.critical ++
       " critical | " ++ toString issueCounts.warnings ++ " warnings | " ++
       toString driftCount ++ " drift",
     ""]

/-- Lines 756-770: the expanded top issue, always labelled `### Critical:`. -/
def topIssueSection (points : List InferencePoint) : List String :=
  match findTopIssue points with
  | none => []
  | some (issue, location) =>
    ["### Critical: " ++ issue.headline,
     "**Location:** `" ++ location ++ "`",
     "**Impact:** " ++ issue.evidence]
    ++ (match issue.suggestedFix with
        | some fix => ["", "**Fix:**", "```", fix, "```"]
        | none => [])
    ++ [""]

/-- Lines 772-788: collapsible drift table (first 10 rows). -/
def driftSection (drifts : Option (List DriftDetection)) : List String :=
  match drifts with
  | none => []
  | some ds =>
    if ds.length > 0 then
      ["<details>",
       "<summary>Drift Detections (" ++ toString ds.length ++ ")</summary>",
       "",
       "| Location | Type | Declared | Observed |",
       "|----------|------|----------|----------|"]
      ++ (ds.take 10).map (fun d =>
          "| `" ++ d.file ++ ":" ++ toString d.line ++ "` | " ++ d.type ++
            " | " ++ d.declared ++ " | " ++ d.observed ++ " |")
      ++ (if ds.length > 10 then
          ["| ... | " ++ toString (ds.length - 10) ++ " more | | |"]
         else [])
      ++ ["", "</details>", ""]
    else []

/-- Lines 790-803: collapsible benchmark table (first 10 rows). -/
def benchSection (comparisons : Option (List BenchmarkComparison)) : List String :=
  match comparisons with
  | none => []
  | some comps =>
    if comps.length > 0 then
      ["<details>",
       "<summary>Benchmark Comparison</summary>",
       "",
       "| Model | Your p95 | Benchmark p95 | Gap |",
       "|-------|----------|---------------|-----|"]
      ++ (comps.take 10).map (fun comp =>
          "| " ++ comp.model ++ " | " ++ toString comp.yourP95 ++ "ms | " ++
            toString comp.benchmarkP95 ++ "ms | " ++ comp.gapDescription ++ " |")
      ++ ["", "</details>", ""]
    else []

def severityLabel (severity : Severity) : String :=
  if severity = .critical then "CRITICAL"
  else if severity = .warning then "WARNING"
  else "INFO"

/-- Lines 805-822: collapsible table of all issues. -/
def issuesTableSection (issueCounts : IssueCounts)
    (points : List InferencePoint) : List String :=
  if issueCounts.critical > 0 ∨ issueCounts.warnings > 0 then
    ["<details>",
     "<summary>All Issues (" ++
       toString (issueCounts.critical + issueCounts.warnings) ++ ")</summary>",
     "",
     "| Location | Severity | Issue |",
     "|----------|----------|-------|"]
    ++ (points.flatMap (fun point => point.issues.map (fun issue =>
        "| `" ++ point.file ++ ":" ++ toString point.line ++ "` | " ++
          severityLabel issue.severity ++ " | " ++ issue.headline ++ " |")))
    ++ ["", "</details>", ""]
  else []

/-- Lines 824-837: collapsible high-priority insights (first 5). -/
def insightsSection (insights : List Insight) : List String :=
  let criticalInsights := insights.filter
    (fun i => i.severity == "critical" || i.severity == "warning")
  if criticalInsights.length > 0 then
    ["<details>",
     "<summary>Insights (" ++ toString criticalInsights.length ++ ")</summary>",
     ""]
    ++ (criticalInsights.take 5).map (fun insight =>
        "- **[" ++ (if insight.severity == "critical" then "CRITICAL" else "WARNING") ++
          "] " ++ insight.title ++ "**: " ++ insight.description)
    ++ ["", "</details>", ""]
  else []

/-- Lines 839-856: collapsible enhancement prompts. -/
def promptsSection (showEnhancementPrompts : Bool) (layersUsed : List String)
    (summary : Summary) : List String :=
  if showEnhancementPrompts then
    let prompts := getEnhancementPrompts layersUsed (decide (summary.totalOptimizations > 0))
    if prompts.length > 0 then
      ["<details>", "<summary>Enhance Your Analysis</summary>", ""]
      ++ prompts.flatMap (fun prompt =>
          ["**Add " ++ prompt.layer ++ ":** " ++ prompt.message,
           "```yaml", prompt.workflowSnippet, "```", ""])
      ++ ["</details>", ""]
    else []
  else []

/-- Lines 858-864: the footer, with the credit line only when `credits`
is present. -/
def footerSection (credits : Option Credits) : List String :=
  ["---",
   match credits with
   | some c => "*Credits: " ++ toString c.consumed ++ " used | " ++
       toString c.remaining ++ " remaining | [PeakInfer](https://peakinfer.com)*"
   | none => "*[PeakInfer](https://peakinfer.com)*"]

/-- The `lines` array built by `generateComment` (lines 730-866), section
by section in source order. -/
def generateCommentLines (analysis : Analysis) (verdict : Verdict)
    (credits : Option Credits) (showEnhancementPrompts : Bool) : List String :=
  let issueCounts := countIssues analysis.inferencePoints
  let driftCount := (analysis.drifts.getD []).length
  headerSection verdict analysis.layersUsed
  ++ summarySection analysis.summary issueCounts driftCount
  ++ topIssueSection analysis.inferencePoints
  ++ driftSection analysis.drifts
  ++ benchSection analysis.benchmarkComparisons
  ++ issuesTableSection issueCounts analysis.inferencePoints
  ++ insightsSection analysis.insights
  ++ promptsSection showEnhancementPrompts analysis.layersUsed analysis.summary
  ++ footerSection credits

/-- `generateComment` (lines 730-867): the joined body. -/
def generateComment (analysis : Analysis) (verdict : Verdict)
    (credits : Option Credits) (showEnhancementPrompts : Bool) : String :=
  String.intercalate "\n"
    (generateCommentLines analysis verdict credits showEnhancementPrompts)

/-- `Number.prototype.toLocaleString()` for a non-negative integer in the
default en-US locale: decimal digits grouped in threes by commas. -/
def insertCommas : List Char → List Char
  | c1 :: c2 :: c3 :: c4 :: rest => c1 :: c2 :: c3 :: ',' :: insertCommas (c4 :: rest)
  | l => l

def toLocaleString (n : Nat) : String :=
  String.mk (insertCommas (Nat.repr n).data.reverse).reverse

/-- `generateExhaustedComment` (lines 887-907). -/
def generateExhaustedComment (valueDelivered : OrgStats)
    (uncheckedFiles uncheckedEstimatedPoints : Nat) : String :=
  String.intercalate "\n"
    ["## [PAUSED] PeakInfer: Analysis Paused",
     "",
     "**Value Delivered This Month:**",
     "- " ++ toString valueDelivered.prsAnalyzed ++ " PRs analyzed",
     "- " ++ toString valueDelivered.criticalCaught ++ " critical issues caught before production",
     "- $" ++ toLocaleString valueDelivered.estimatedSavings ++ " estimated savings",
     "",
     "**Unchecked:**",
     "- " ++ toString uncheckedFiles ++ " files with ~" ++
       toString uncheckedEstimatedPoints ++ " inference points",
     "",
     "[Add Credits](https://peakinfer.com/pricing)",
     "",
     "---",
     "*[PeakInfer](https://peakinfer.com)*"]

/-- `generateSkipComment` (lines 909-920). -/
def generateSkipComment : String :=
  String.intercalate "\n"
    ["## [SKIP] PeakInfer: No LLM Code",
     "",
     "No LLM inference points detected in the changed files.",
     "",
     "PeakInfer analyzes: OpenAI, Anthropic, Azure OpenAI, AWS Bedrock, Google Vertex, vLLM, LangChain, LlamaIndex",
     "",
     "---",
     "*[PeakInfer](https://peakinfer.com)*"]

/-- `generateErrorComment` (lines 922-941). -/
def generateErrorComment (error : String) (hint : Option String) : String :=
  String.intercalate "\n"
    (["## [ERROR] PeakInfer: Analysis Failed",
      "",
      "**Error:** " ++ error]
     ++ (match hint with
         | some h => ["", "**Hint:** " ++ h]
         | none => [])
     ++ ["",
         "If this persists, please [report an issue](https://github.com/Kalmantic/peakinfer-action/issues).",
         "",
         "---",
         "*[PeakInfer](https://peakinfer.com)*"])

/-! ## Orchestrator (src/index.ts lines 947-1134) -/

inductive CommentMode where
  | always
  | onIssues
  | never
deriving DecidableEq, Repr

/-- `ActionInputs` after parsing (lines 950-970), with the behavior inputs
the claims quantify over. -/
structure RunInputs where
  path : String
  peakinferToken : String
  githubToken : String
  runtimeSource : Option String
  runtimeApiKey : Option String
  eventsFile : Option String
  eventsMap : Option String
  includeBenchmarks : Bool
  benchmarkFramework : String
  evalsSource : Option String
  evalsApiKey : Option String
  failOnCritical : Bool
  commentMode : CommentMode
  showEnhancementPrompts : Bool
deriving Repr

/-- Layer-config construction (lines 997-1014). -/
def buildLayers (inputs : RunInputs) : LayerConfig :=
  { runtime :=
      { enabled := inputs.runtimeSource.isSome || inputs.eventsFile.isSome,
        source := inputs.runtimeSource,
        apiKey := inputs.runtimeApiKey,
        eventsFile := inputs.eventsFile },
    benchmarks :=
      { enabled := inputs.includeBenchmarks,
        framework := inputs.benchmarkFramework },
    evals :=
      { enabled := inputs.evalsSource.isSome,
        source := inputs.evalsSource,
        apiKey := inputs.evalsApiKey } }

/-- The observable trace of one orchestrator run: the bodies of the
comment-post calls issued (in order), the `verdict` output if set, and
whether `core.setFailed` was called. -/
structure RunResult where
  comments : List String
  verdictOut : Option Verdict
  failed : Bool
deriving Repr

/-- `run` (lines 947-1134) as a function of the parsed inputs and the
environment: whether the triggering event is a pull request, the file tree
under `inputs.path` (`none` when the path does not exist), the transport
response of the analysis call, and the stats-call result (`none` models
`fetchOrgStats` returning null, its absorbed-failure path).  The `catch`
handler (lines 1126-1133) is reflected in the `.error` branch — a throw
from `response.json()` — and in the `analysis = none` branch — the
`TypeError` thrown by the success path's first access to
`analysis.summary` — both of which set the `ERROR` verdict output and mark
the run failed without posting a comment. -/
def run (inputs : RunInputs) (isPR : Bool) (fsRoot : Option (List FsEntry))
    (resp : HttpResponse) (stats : Option OrgStats) : RunResult :=
  if inputs.peakinferToken = "" then ⟨[], none, true⟩
  else if inputs.githubToken = "" then ⟨[], none, true⟩
  else if isPR = false then ⟨[], none, false⟩
  else
    let files := collectFiles fsRoot inputs.path 50
    if files.length = 0 then
      ⟨if inputs.commentMode ≠ .never then [generateSkipComment] else [],
       some .SKIP, false⟩
    else
      match callAnalysisAPI resp with
      | .error _ => ⟨[], some .ERROR, true⟩
      | .ok data =>
        match data.errorVal with
        | some errMsg =>
          if data.code = some "CREDIT_EXHAUSTED" then
            let valueDelivered := stats.getD ⟨0, 0, 0⟩
            ⟨[generateExhaustedComment valueDelivered files.length (files.length * 3)],
             some .PAUSED, false⟩
          else
            ⟨if inputs.commentMode ≠ .never then
               [generateErrorComment errMsg data.hint]
             else [],
             some .ERROR, true⟩
        | none =>
          match data.analysis with
          | none => ⟨[], some .ERROR, true⟩
          | some analysis =>
            let issueCounts := countIssues analysis.inferencePoints
            let verdict := calculateVerdict issueCounts.critical issueCounts.warnings
              (decide (analysis.summary.totalInferencePoints > 0)) false false
            ⟨if inputs.commentMode = .always ∨
               (inputs.commentMode = .onIssues ∧
                 (issueCounts.critical > 0 ∨ issueCounts.warnings > 0)) then
               [generateComment analysis verdict data.credits inputs.showEnhancementPrompts]
             else [],
             some verdict,
             inputs.failOnCritical && decide (issueCounts.critical > 0)⟩

/-! ## Concrete fixtures (used to instantiate the universally quantified
statements at specific inputs) -/

def summary1 : Summary :=
  { totalInferencePoints := 1, totalFiles := 1, providers := ["openai"],
    models := ["gpt-4o"], overallReliability := "high",
    totalOptimizations := 0, criticalOptimizations := 0 }

def analysisNoIssues : Analysis :=
  { inferencePoints := [], drifts := none, benchmarkComparisons := none,
    insights := [], summary := summary1, layersUsed := ["code"] }

def analysisZeroPoints : Analysis :=
  { analysisNoIssues with
    summary := { summary1 with totalInferencePoints := 0 } }

def warnIssue : Issue :=
  { type := "latency", severity := .warning, headline := "Slow call",
    evidence := "p95 is high", suggestedFix := none }

def infoIssue : Issue :=
  { type := "note", severity := .info, headline := "For your information",
    evidence := "e", suggestedFix := none }

def pointWarn : InferencePoint :=
  { id := "p1", file := "src/chat.ts", line := 3, provider := "openai",
    model := "gpt-4o", issues := [warnIssue] }

def pointInfo : InferencePoint :=
  { id := "p2", file := "src/chat.ts", line := 4, provider := "openai",
    model := "gpt-4o", issues := [infoIssue] }

def analysisWarnOnly : Analysis :=
  { analysisNoIssues with inferencePoints := [pointWarn] }

def analysisInfoOnly : Analysis :=
  { analysisNoIssues with inferencePoints := [pointInfo] }

def fs1 : List FsEntry := [.file "chat.ts" 10 (some "x")]

def inputs0 : RunInputs :=
  { path := "./src", peakinferToken := "tok", githubToken := "gh",
    runtimeSource := none, runtimeApiKey := none, eventsFile := none,
    eventsMap := none, includeBenchmarks := true, benchmarkFramework := "api",
    evalsSource := none, evalsApiKey := none, failOnCritical := true,
    commentMode := .always, showEnhancementPrompts := true }

def inputsNever : RunInputs := { inputs0 with commentMode := .never }

def inputsOnIssues : RunInputs := { inputs0 with commentMode := .onIssues }

def dSuccessNoErrorKey : ParsedData :=
  { errorVal := none, code := none, hint := none,
    analysis := some analysisNoIssues, credits := none }

def dExhausted : ParsedData :=
  { errorVal := some "Credit limit reached", code := some "CREDIT_EXHAUSTED",
    hint := none, analysis := none, credits := none }

def dInfoOnly : ParsedData :=
  { errorVal := none, code := none, hint := none,
    analysis := some analysisInfoOnly, credits := none }

end PeakInfer

namespace PeakInfer

/-- The traversal collects exactly the allowed files in traversal order,
truncated at the remaining capacity. -/
theorem pushFile_eq_append (dir name : String) (size : Nat)
    (content : Option String) (files : List FileInfo) :
    pushFile dir name size content files =
      files ++ goodFile dir name size content := by
  unfold pushFile goodFile
  split
  · cases content <;> simp
  · simp

theorem goodFile_length_le_one (dir name : String) (size : Nat)
    (content : Option String) :
    (goodFile dir name size content).length ≤ 1 := by
  unfold goodFile
  split
  · cases content <;> simp
  · simp

theorem collectWalk_eq_take (dir : String) (es : List FsEntry)
    (files : List FileInfo) (maxFiles : Nat) :
    collectWalk dir es files maxFiles =
      files ++ (goodWalk dir es).take (maxFiles - files.length) := by
  induction dir, es, files, maxFiles using collectWalk.induct with
  | case1 dir files maxFiles => simp [collectWalk, goodWalk]
  | case2 dir files maxFiles name size content rest hcap =>
    rw [collectWalk, if_pos hcap, (by omega : maxFiles - files.length = 0)]
    simp
  | case3 dir files maxFiles name size content rest hcap ih =>
    rw [collectWalk, goodWalk, if_neg hcap, ih, pushFile_eq_append,
      List.take_append_eq_append_take, List.append_assoc]
    have h1 : (goodFile dir name size content).length ≤ maxFiles - files.length := by
      have := goodFile_length_le_one dir name size content
      omega
    rw [List.take_of_length_le h1, List.length_append, ← Nat.sub_sub]
  | case4 dir files maxFiles name entries rest hcap =>
    rw [collectWalk, if_pos hcap, (by omega : maxFiles - files.length = 0)]
    simp
  | case5 dir files maxFiles name entries rest hcap files' ihsub ihrest =>
    rw [collectWalk, goodWalk, if_neg hcap]
    unfold files' at ihrest
    simp only []
    by_cases hskip : SKIP_DIRS.contains name = true
    · rw [dif_pos hskip] at ihrest
      rw [if_pos hskip, ihrest, if_pos hskip]
      simp
    · rw [dif_neg hskip] at ihrest
      rw [if_neg hskip, ihrest, if_neg hskip, ihsub,
        List.take_append_eq_append_take, List.append_assoc,
        List.length_append, List.length_take]
      have heq : maxFiles - (files.length + min (maxFiles - files.length)
          (goodWalk (pathJoin dir name) entries).length) =
          maxFiles - files.length - (goodWalk (pathJoin dir name) entries).length := by
        omega
      rw [heq]

/-- C2: for every file tree and every `maxFiles` bound, `collectFiles`
returns at most `maxFiles` entries, and every returned entry is one of the
allowed files — extension in the fixed allowlist, size strictly under
100,000 bytes at read time, and not under any denylisted directory below
the traversal root (the characterization computed by `goodFiles`). -/
theorem C2_collectFiles_capped_and_allowlisted
    (root : Option (List FsEntry)) (dir : String) (maxFiles : Nat) :
    (collectFiles root dir maxFiles).length ≤ maxFiles
    ∧ ∀ f, f ∈ collectFiles root dir maxFiles → f ∈ goodFiles root dir := by
  have hkey : collectFiles root dir maxFiles =
      (goodFiles root dir).take maxFiles := by
    cases root with
    | none => simp [collectFiles, goodFiles]
    | some entries =>
      show collectWalk dir entries [] maxFiles = _
      rw [collectWalk_eq_take]
      simp [goodFiles]
  rw [hkey]
  exact ⟨List.length_take_le maxFiles (goodFiles root dir),
    fun f hf => List.take_subset _ _ hf⟩

/-- Witness for C2 at a concrete tree: a root holding `chat.ts` (allowed),
an oversized `big.ts`, a `readme.md` (extension not allowed) and a
`node_modules` subtree; the collector returns exactly the one allowed
file, within the cap and inside `goodFiles`. -/
theorem C2_collectFiles_capped_and_allowlisted_witness :
    (collectFiles (some [.file "chat.ts" 120 (some "x"),
        .file "big.ts" 200000 (some "y"),
        .file "readme.md" 10 (some "z"),
        .dir "node_modules" [.file "index.js" 5 (some "w")]]) "./src" 50).length ≤ 50
    ∧ FileInfo.mk "./src/chat.ts" "x" ∈
        goodFiles (some [.file "chat.ts" 120 (some "x"),
          .file "big.ts" 200000 (some "y"),
          .file "readme.md" 10 (some "z"),
          .dir "node_modules" [.file "index.js" 5 (some "w")]]) "./src" := by
  refine ⟨(C2_collectFiles_capped_and_allowlisted _ _ 50).1,
    (C2_collectFiles_capped_and_allowlisted _ "./src" 50).2 _ ?_⟩
  simp [collectFiles, collectWalk, pushFile, goodFile, extname, pathJoin,
    SUPPORTED_EXTENSIONS, SKIP_DIRS]

/-- C1: the verdict classifier is total and evaluates its rules in strict
priority order with first match winning, agreeing with the spec's seven
rules on every input; in particular (critical=1, warning=0) → REVIEW,
(critical=2, warning=0) → BLOCK, (critical=0, warning=5) → OK,
(critical=0, warning=6) → REVIEW, and the final PASS rule fires exactly
when there are zero criticals and zero warnings. -/
theorem C1_calculateVerdict_matches_spec :
    (∀ c w h ce he, calculateVerdict c w h ce he = classifySpec c w h ce he)
    ∧ calculateVerdict 1 0 true false false = .REVIEW
    ∧ calculateVerdict 2 0 true false false = .BLOCK
    ∧ calculateVerdict 0 5 true false false = .OK
    ∧ calculateVerdict 0 6 true false false = .REVIEW
    ∧ (∀ c w, calculateVerdict c w true false false = .PASS ↔ c = 0 ∧ w = 0) := by
  refine ⟨?_, by decide, by decide, by decide, by decide, ?_⟩
  · intro c w h ce he
    cases h <;> cases ce <;> cases he <;>
      simp only [calculateVerdict, classifySpec, Bool.not_true, Bool.not_false] <;>
      split <;> simp_all
  · intro c w
    constructor
    · intro hp
      by_contra hne
      simp only [calculateVerdict, Bool.not_true] at hp
      split at hp
      · simp at hp
      · split at hp
        · simp_all
        · split at hp
          · simp_all
          · split at hp
            · simp_all
            · omega
    · rintro ⟨rfl, rfl⟩
      decide

/-- C5: for every analysis input, `generateComment` is total and degrades
gracefully when the optional fields are absent — with no credits object the
footer is the plain PeakInfer line (no credit line), with no drifts array
the drift block is empty, and with no insights the insights block is
empty; the body is still a well-formed text: nonempty, headed by the
verdict header line, terminated by the footer line, and equal to the
newline-join of its lines.  (`insights` is a required field of the source
interface, so its absence is the empty array; `credits` and `drifts` are
genuinely optional.) -/
theorem C5_render_graceful_without_optionals (analysis : Analysis)
    (verdict : Verdict) (showEnhancementPrompts : Bool)
    (hdrifts : analysis.drifts = none)
    (hinsights : analysis.insights = []) :
    generateCommentLines analysis verdict none showEnhancementPrompts ≠ []
    ∧ (generateCommentLines analysis verdict none showEnhancementPrompts).head? =
        some ("## [" ++ verdictName verdict ++ "] PeakInfer: " ++ VERDICT_TEXT verdict)
    ∧ (generateCommentLines analysis verdict none showEnhancementPrompts).getLast? =
        some "*[PeakInfer](https://peakinfer.com)*"
    ∧ footerSection none = ["---", "*[PeakInfer](https://peakinfer.com)*"]
    ∧ driftSection analysis.drifts = []
    ∧ insightsSection analysis.insights = []
    ∧ generateComment analysis verdict none showEnhancementPrompts =
        String.intercalate "\n"
          (generateCommentLines analysis verdict none showEnhancementPrompts) := by
  refine ⟨?_, ?_, ?_, rfl, ?_, ?_, rfl⟩
  · simp [generateCommentLines, headerSection]
  · simp [generateCommentLines, headerSection]
  · simp [generateCommentLines, List.getLast?_append, footerSection]
  · rw [hdrifts]; rfl
  · rw [hinsights]; rfl

/-- Witness for C5 at a concrete analysis with no drifts, no insights and
no credits object. -/
theorem C5_render_graceful_without_optionals_witness :
    analysisNoIssues.drifts = none ∧ analysisNoIssues.insights = []
    ∧ (generateCommentLines analysisNoIssues .PASS none true).getLast? =
        some "*[PeakInfer](https://peakinfer.com)*" :=
  ⟨rfl, rfl, (C5_render_graceful_without_optionals analysisNoIssues .PASS true
    rfl rfl).2.2.1⟩

/-- C6: every success result with zero inference points (empty
`inferencePoints` and a zero `summary.totalInferencePoints`) renders a
body that contains the literal no-inference-points phrase, and the
issues-table block of that body is empty. -/
theorem C6_zero_points_phrase_and_no_issues_table (analysis : Analysis)
    (verdict : Verdict) (credits : Option Credits)
    (showEnhancementPrompts : Bool)
    (hpoints : analysis.inferencePoints = [])
    (htotal : analysis.summary.totalInferencePoints = 0) :
    "No LLM inference points detected in this PR." ∈
        generateCommentLines analysis verdict credits showEnhancementPrompts
    ∧ issuesTableSection (countIssues analysis.inferencePoints)
        analysis.inferencePoints = []
    ∧ generateComment analysis verdict credits showEnhancementPrompts =
        String.intercalate "\n"
          (generateCommentLines analysis verdict credits showEnhancementPrompts) := by
  refine ⟨?_, ?_, rfl⟩
  · simp only [generateCommentLines, summarySection, htotal, if_pos]
    simp
  · rw [hpoints]
    rfl

/-- Witness for C6 at a concrete zero-point analysis. -/
theorem C6_zero_points_phrase_and_no_issues_table_witness :
    analysisZeroPoints.inferencePoints = []
    ∧ analysisZeroPoints.summary.totalInferencePoints = 0
    ∧ "No LLM inference points detected in this PR." ∈
        generateCommentLines analysisZeroPoints .SKIP none true :=
  ⟨rfl, rfl, (C6_zero_points_phrase_and_no_issues_table analysisZeroPoints
    .SKIP none true rfl rfl).1⟩

theorem findIssueWith_eq_none (sev : Severity) (points : List InferencePoint)
    (h : ∀ p ∈ points, ∀ i ∈ p.issues, i.severity ≠ sev) :
    findIssueWith sev points = none := by
  rw [findIssueWith, List.findSome?_eq_none_iff]
  intro p hp
  simp only [Option.map_eq_none', List.find?_eq_none]
  intro i hi
  simpa using h p hp i hi

theorem findIssueWith_severity (sev : Severity) (points : List InferencePoint)
    (issue : Issue) (location : String)
    (h : findIssueWith sev points = some (issue, location)) :
    issue.severity = sev := by
  induction points with
  | nil => simp [findIssueWith] at h
  | cons p rest ih =>
    rw [findIssueWith, List.findSome?_cons] at h
    cases hfind : p.issues.find? (fun i => decide (i.severity = sev)) with
    | some j =>
      rw [hfind] at h
      simp only [Option.map_some'] at h
      obtain ⟨rfl, -⟩ : j = issue ∧ _ := by
        injection h with h2
        exact ⟨congrArg Prod.fst h2, congrArg Prod.snd h2⟩
      simpa using List.find?_some hfind
    | none =>
      rw [hfind] at h
      simp only [Option.map_none'] at h
      exact ih h

/-- C9: whenever the inference points contain at least one warning but no
critical issue, `findTopIssue` yields the first warning in file order, and
the success comment renders it under a header that literally labels it
`### Critical:` even though it is a warning. -/
theorem C9_warning_top_issue_labelled_critical (analysis : Analysis)
    (verdict : Verdict) (credits : Option Credits)
    (showEnhancementPrompts : Bool) (issue : Issue) (location : String)
    (hnc : ∀ p ∈ analysis.inferencePoints, ∀ i ∈ p.issues,
        i.severity ≠ Severity.critical)
    (hfw : findIssueWith .warning analysis.inferencePoints =
        some (issue, location)) :
    findTopIssue analysis.inferencePoints = some (issue, location)
    ∧ issue.severity = .warning
    ∧ ("### Critical: " ++ issue.headline) ∈
        generateCommentLines analysis verdict credits showEnhancementPrompts := by
  have htop : findTopIssue analysis.inferencePoints = some (issue, location) := by
    rw [findTopIssue, findIssueWith_eq_none .critical _ hnc, hfw]
  refine ⟨htop, findIssueWith_severity _ _ _ _ hfw, ?_⟩
  simp only [generateCommentLines, topIssueSection, htop]
  simp

/-- Witness for C9 at a concrete analysis whose only issue is a warning. -/
theorem C9_warning_top_issue_labelled_critical_witness :
    (∀ p ∈ analysisWarnOnly.inferencePoints, ∀ i ∈ p.issues,
        i.severity ≠ Severity.critical)
    ∧ findIssueWith .warning analysisWarnOnly.inferencePoints =
        some (warnIssue, "src/chat.ts:3")
    ∧ ("### Critical: " ++ warnIssue.headline) ∈
        generateCommentLines analysisWarnOnly .OK none true := by
  have h1 : ∀ p ∈ analysisWarnOnly.inferencePoints, ∀ i ∈ p.issues,
      i.severity ≠ Severity.critical := by
    simp [analysisWarnOnly, analysisNoIssues, pointWarn, warnIssue]
  have h2 : findIssueWith .warning analysisWarnOnly.inferencePoints =
      some (warnIssue, "src/chat.ts:3") := by
    simp only [findIssueWith, analysisWarnOnly, analysisNoIssues, pointWarn,
      warnIssue, List.findSome?_cons, List.find?]
    decide
  exact ⟨h1, h2, (C9_warning_top_issue_labelled_critical analysisWarnOnly
    .OK none true warnIssue "src/chat.ts:3" h1 h2).2.2⟩

/-- A response body that parses always reaches the `'error' in response`
check with that body, whatever the transport status. -/
theorem callAnalysisAPI_ok (resp : HttpResponse) (d : ParsedData)
    (h : resp.body = some d) : callAnalysisAPI resp = .ok d := by
  simp [callAnalysisAPI, h]

/-- The run of the credit-exhausted service answer: quota comment (posted
unconditionally), `PAUSED` verdict output, not failed. -/
theorem run_exhausted_path (inputs : RunInputs) (isPR : Bool)
    (fsRoot : Option (List FsEntry)) (resp : HttpResponse)
    (stats : Option OrgStats) (d : ParsedData) (errMsg : String)
    (h1 : ¬ inputs.peakinferToken = "") (h2 : ¬ inputs.githubToken = "")
    (h3 : isPR = true)
    (h4 : ¬ (collectFiles fsRoot inputs.path 50).length = 0)
    (h5 : resp.body = some d) (h6 : d.errorVal = some errMsg)
    (h7 : d.code = some "CREDIT_EXHAUSTED") :
    run inputs isPR fsRoot resp stats =
      ⟨[generateExhaustedComment (stats.getD ⟨0, 0, 0⟩)
          (collectFiles fsRoot inputs.path 50).length
          ((collectFiles fsRoot inputs.path 50).length * 3)],
       some .PAUSED, false⟩ := by
  subst h3
  unfold run
  rw [if_neg h1, if_neg h2, if_neg (by simp : ¬ true = false)]
  simp only [callAnalysisAPI_ok resp d h5, h6]
  rw [if_neg h4, if_pos h7]

/-- The run of a parsed success body: success-path comments, verdict and
failure flag. -/
theorem run_success_path (inputs : RunInputs) (isPR : Bool)
    (fsRoot : Option (List FsEntry)) (resp : HttpResponse)
    (stats : Option OrgStats) (d : ParsedData) (analysis : Analysis)
    (h1 : ¬ inputs.peakinferToken = "") (h2 : ¬ inputs.githubToken = "")
    (h3 : isPR = true)
    (h4 : ¬ (collectFiles fsRoot inputs.path 50).length = 0)
    (h5 : resp.body = some d) (h6 : d.errorVal = none)
    (h7 : d.analysis = some analysis) :
    run inputs isPR fsRoot resp stats =
      ⟨if inputs.commentMode = .always ∨
          (inputs.commentMode = .onIssues ∧
            ((countIssues analysis.inferencePoints).critical > 0 ∨
              (countIssues analysis.inferencePoints).warnings > 0)) then
         [generateComment analysis
           (calculateVerdict (countIssues analysis.inferencePoints).critical
             (countIssues analysis.inferencePoints).warnings
             (decide (analysis.summary.totalInferencePoints > 0)) false false)
           d.credits inputs.showEnhancementPrompts]
       else [],
       some (calculateVerdict (countIssues analysis.inferencePoints).critical
         (countIssues analysis.inferencePoints).warnings
         (decide (analysis.summary.totalInferencePoints > 0)) false false),
       inputs.failOnCritical &&
         decide ((countIssues analysis.inferencePoints).critical > 0)⟩ := by
  subst h3
  unfold run
  rw [if_neg h1, if_neg h2, if_neg (by simp : ¬ true = false)]
  simp only [callAnalysisAPI_ok resp d h5, h6, h7]
  rw [if_neg h4]

/-- Issues of severity `info` leave both counters untouched. -/
theorem countIssues_all_info (points : List InferencePoint)
    (h : ∀ p ∈ points, ∀ i ∈ p.issues, i.severity = Severity.info) :
    countIssues points = ⟨0, 0⟩ := by
  have inner : ∀ (issues : List Issue) (acc : IssueCounts),
      (∀ i ∈ issues, i.severity = Severity.info) →
      issues.foldl (fun acc issue =>
        if issue.severity = .critical then { acc with critical := acc.critical + 1 }
        else if issue.severity = .warning then { acc with warnings := acc.warnings + 1 }
        else acc) acc = acc := by
    intro issues
    induction issues with
    | nil => intro acc _; rfl
    | cons i rest ih =>
      intro acc hall
      have hi : i.severity = Severity.info := hall i (by simp)
      rw [List.foldl_cons, if_neg (by simp [hi]), if_neg (by simp [hi])]
      exact ih acc (fun j hj => hall j (List.mem_cons_of_mem i hj))
  have outer : ∀ (pts : List InferencePoint) (acc : IssueCounts),
      (∀ p ∈ pts, ∀ i ∈ p.issues, i.severity = Severity.info) →
      pts.foldl (fun acc point =>
        point.issues.foldl (fun acc issue =>
          if issue.severity = .critical then { acc with critical := acc.critical + 1 }
          else if issue.severity = .warning then { acc with warnings := acc.warnings + 1 }
          else acc) acc) acc = acc := by
    intro pts
    induction pts with
    | nil => intro acc _; rfl
    | cons p rest ih =>
      intro acc hall
      rw [List.foldl_cons, inner p.issues acc (hall p (by simp))]
      exact ih acc (fun q hq => hall q (List.mem_cons_of_mem p hq))
  exact outer points ⟨0, 0⟩ h

/-- C7: a service answer with error code `CREDIT_EXHAUSTED` makes the
orchestrator post exactly the quota-exhausted comment, export verdict
`PAUSED`, and leave the run unfailed — for every input configuration,
including `fail-on-critical = true`. -/
theorem C7_credit_exhausted_pauses_without_failing (inputs : RunInputs)
    (isPR : Bool) (fsRoot : Option (List FsEntry)) (resp : HttpResponse)
    (stats : Option OrgStats) (d : ParsedData) (errMsg : String)
    (h1 : ¬ inputs.peakinferToken = "") (h2 : ¬ inputs.githubToken = "")
    (h3 : isPR = true)
    (h4 : ¬ (collectFiles fsRoot inputs.path 50).length = 0)
    (h5 : resp.body = some d) (h6 : d.errorVal = some errMsg)
    (h7 : d.code = some "CREDIT_EXHAUSTED") :
    (run inputs isPR fsRoot resp stats).comments =
      [generateExhaustedComment (stats.getD ⟨0, 0, 0⟩)
        (collectFiles fsRoot inputs.path 50).length
        ((collectFiles fsRoot inputs.path 50).length * 3)]
    ∧ (run inputs isPR fsRoot resp stats).verdictOut = some .PAUSED
    ∧ (run inputs isPR fsRoot resp stats).failed = false := by
  rw [run_exhausted_path inputs isPR fsRoot resp stats d errMsg
    h1 h2 h3 h4 h5 h6 h7]
  exact ⟨rfl, rfl, rfl⟩

/-- Witness for C7: concrete run with `fail-on-critical = true` and a
credit-exhausted response. -/
theorem C7_credit_exhausted_pauses_without_failing_witness :
    inputs0.failOnCritical = true
    ∧ (run inputs0 true (some fs1) ⟨false, some dExhausted⟩ none).verdictOut =
        some .PAUSED
    ∧ (run inputs0 true (some fs1) ⟨false, some dExhausted⟩ none).failed = false := by
  have h4 : ¬ (collectFiles (some fs1) inputs0.path 50).length = 0 := by
    simp [collectFiles, collectWalk, pushFile, extname, pathJoin,
      SUPPORTED_EXTENSIONS, fs1, inputs0]
  have h := C7_credit_exhausted_pauses_without_failing inputs0 true (some fs1)
    ⟨false, some dExhausted⟩ none dExhausted "Credit limit reached"
    (by simp [inputs0]) (by simp [inputs0]) rfl h4 rfl rfl rfl
  exact ⟨rfl, h.2.1, h.2.2⟩

/-- C10: issues of severity `info` are counted as neither critical nor
warning — an all-info result yields counts (0, 0), hence verdict `PASS`
when at least one inference point is present, and under comment-mode
`on-issues` no comment is posted. -/
theorem C10_info_issues_counted_as_neither (inputs : RunInputs)
    (isPR : Bool) (fsRoot : Option (List FsEntry)) (resp : HttpResponse)
    (stats : Option OrgStats) (d : ParsedData) (analysis : Analysis)
    (h1 : ¬ inputs.peakinferToken = "") (h2 : ¬ inputs.githubToken = "")
    (h3 : isPR = true)
    (h4 : ¬ (collectFiles fsRoot inputs.path 50).length = 0)
    (h5 : resp.body = some d) (h6 : d.errorVal = none)
    (h7 : d.analysis = some analysis)
    (hinfo : ∀ p ∈ analysis.inferencePoints, ∀ i ∈ p.issues,
        i.severity = Severity.info)
    (hpts : analysis.summary.totalInferencePoints > 0)
    (hmode : inputs.commentMode = .onIssues) :
    countIssues analysis.inferencePoints = ⟨0, 0⟩
    ∧ (run inputs isPR fsRoot resp stats).verdictOut = some .PASS
    ∧ (run inputs isPR fsRoot resp stats).comments = [] := by
  have hcount := countIssues_all_info analysis.inferencePoints hinfo
  rw [run_success_path inputs isPR fsRoot resp stats d analysis
    h1 h2 h3 h4 h5 h6 h7]
  refine ⟨hcount, ?_, ?_⟩
  · simp only [hcount]
    rw [(by simp [hpts] : decide (analysis.summary.totalInferencePoints > 0) = true)]
    rfl
  · rw [if_neg]
    rw [hmode, hcount]
    simp

/-- Witness for C10: a concrete run whose only issue has severity `info`,
in comment-mode `on-issues`. -/
theorem C10_info_issues_counted_as_neither_witness :
    (∀ p ∈ analysisInfoOnly.inferencePoints, ∀ i ∈ p.issues,
        i.severity = Severity.info)
    ∧ (run inputsOnIssues true (some fs1) ⟨true, some dInfoOnly⟩ none).verdictOut =
        some .PASS
    ∧ (run inputsOnIssues true (some fs1) ⟨true, some dInfoOnly⟩ none).comments = [] := by
  have hinfo : ∀ p ∈ analysisInfoOnly.inferencePoints, ∀ i ∈ p.issues,
      i.severity = Severity.info := by
    simp [analysisInfoOnly, analysisNoIssues, pointInfo, infoIssue]
  have h4 : ¬ (collectFiles (some fs1) inputsOnIssues.path 50).length = 0 := by
    simp [collectFiles, collectWalk, pushFile, extname, pathJoin,
      SUPPORTED_EXTENSIONS, fs1, inputsOnIssues, inputs0]
  have h := C10_info_issues_counted_as_neither inputsOnIssues true (some fs1)
    ⟨true, some dInfoOnly⟩ none dInfoOnly analysisInfoOnly
    (by simp [inputsOnIssues, inputs0]) (by simp [inputsOnIssues, inputs0]) rfl
    h4 rfl rfl rfl hinfo
    (by simp [analysisInfoOnly, analysisNoIssues, summary1]) rfl
  exact ⟨hinfo, h.2.1, h.2.2⟩

/-- C3 counterexample: a response whose transport status is NOT ok but
whose parsed body has no `error` key is routed to the success branch —
the orchestrator exports a success verdict (`PASS`) — refuting the claim
that any non-success transport status selects the error branch (and that
the success branch requires a success transport status). -/
theorem C3_counterexample_non_ok_status_taken_as_success :
    (HttpResponse.mk false (some dSuccessNoErrorKey)).ok = false
    ∧ runApiBranch ⟨false, some dSuccessNoErrorKey⟩ = .success
    ∧ (run inputs0 true (some fs1)
        ⟨false, some dSuccessNoErrorKey⟩ none).verdictOut = some .PASS := by
  have h4 : ¬ (collectFiles (some fs1) inputs0.path 50).length = 0 := by
    simp [collectFiles, collectWalk, pushFile, extname, pathJoin,
      SUPPORTED_EXTENSIONS, fs1, inputs0]
  refine ⟨rfl, rfl, ?_⟩
  rw [run_success_path inputs0 true (some fs1) ⟨false, some dSuccessNoErrorKey⟩
    none dSuccessNoErrorKey analysisNoIssues (by simp [inputs0])
    (by simp [inputs0]) rfl h4 rfl rfl rfl]
  rfl

/-- C3 amended: the success/error branch of the API-call result is
selected solely by the presence of the `error` field in the parsed
response body — the transport status does not influence the selection —
and a body that does not parse as JSON throws (reaching the catch
handler). -/
theorem C3_amended_branch_selected_by_error_key (ok : Bool)
    (body : Option ParsedData) :
    runApiBranch ⟨ok, body⟩ = runApiBranch ⟨true, body⟩
    ∧ (∀ d, body = some d →
        (runApiBranch ⟨ok, body⟩ = .success ↔ d.errorVal = none))
    ∧ (body = none → runApiBranch ⟨ok, body⟩ = .thrown) := by
  refine ⟨?_, ?_, ?_⟩
  · cases body with
    | none => rfl
    | some d => cases ok <;> rfl
  · rintro d rfl
    cases he : d.errorVal with
    | none => simp [runApiBranch, callAnalysisAPI, ite_self, he]
    | some e =>
      simp only [runApiBranch, callAnalysisAPI, ite_self, he]
      split <;> simp
  · rintro rfl
    rfl

/-- Witness for C3's amended statement at a concrete non-ok response whose
body has no `error` key. -/
theorem C3_amended_branch_selected_by_error_key_witness :
    runApiBranch ⟨false, some dSuccessNoErrorKey⟩ = .success ↔
      dSuccessNoErrorKey.errorVal = none :=
  (C3_amended_branch_selected_by_error_key false
    (some dSuccessNoErrorKey)).2.1 dSuccessNoErrorKey rfl

/-- C4 counterexample: with comment-mode `never`, the credit-exhausted
control path still performs a comment-post call (the quota comment is not
gated on comment-mode), refuting the claim that comment-mode `never`
yields zero comment posts on every control path. -/
theorem C4_counterexample_never_mode_still_posts_on_exhaustion :
    inputsNever.commentMode = .never
    ∧ (run inputsNever true (some fs1)
        ⟨false, some dExhausted⟩ none).comments.length = 1 := by
  have h4 : ¬ (collectFiles (some fs1) inputsNever.path 50).length = 0 := by
    simp [collectFiles, collectWalk, pushFile, extname, pathJoin,
      SUPPORTED_EXTENSIONS, fs1, inputsNever, inputs0]
  refine ⟨rfl, ?_⟩
  rw [run_exhausted_path inputsNever true (some fs1) ⟨false, some dExhausted⟩
    none dExhausted "Credit limit reached" (by simp [inputsNever, inputs0])
    (by simp [inputsNever, inputs0]) rfl h4 rfl rfl rfl]
  rfl

/-- C4 amended: every run performs at most one comment-post call, and with
comment-mode `never` a run posts no comment except on the credit-exhausted
path, whose quota comment is posted regardless of comment-mode. -/
theorem C4_amended_at_most_one_comment (inputs : RunInputs) (isPR : Bool)
    (fsRoot : Option (List FsEntry)) (resp : HttpResponse)
    (stats : Option OrgStats) :
    (run inputs isPR fsRoot resp stats).comments.length ≤ 1
    ∧ (inputs.commentMode = .never →
        (run inputs isPR fsRoot resp stats).comments ≠ [] →
        runApiBranch resp = .creditExhausted) := by
  unfold run
  by_cases h1 : inputs.peakinferToken = ""
  · rw [if_pos h1]
    exact ⟨by simp, fun _ h => absurd rfl h⟩
  rw [if_neg h1]
  by_cases h2 : inputs.githubToken = ""
  · rw [if_pos h2]
    exact ⟨by simp, fun _ h => absurd rfl h⟩
  rw [if_neg h2]
  by_cases h3 : isPR = false
  · rw [if_pos h3]
    exact ⟨by simp, fun _ h => absurd rfl h⟩
  rw [if_neg h3]
  dsimp only
  by_cases h4 : (collectFiles fsRoot inputs.path 50).length = 0
  · rw [if_pos h4]
    constructor
    · dsimp only
      split <;> simp
    · intro hnever h
      dsimp only at h
      rw [if_neg (by simp [hnever])] at h
      exact absurd rfl h
  rw [if_neg h4]
  cases hapi : callAnalysisAPI resp with
  | error e =>
    exact ⟨by simp, fun _ h => absurd rfl h⟩
  | ok data =>
    dsimp only
    cases herr : data.errorVal with
    | some errMsg =>
      dsimp only
      by_cases hcode : data.code = some "CREDIT_EXHAUSTED"
      · rw [if_pos hcode]
        exact ⟨by simp, fun _ _ => by simp [runApiBranch, hapi, herr, hcode]⟩
      · rw [if_neg hcode]
        constructor
        · dsimp only
          split <;> simp
        · intro hnever h
          dsimp only at h
          rw [if_neg (by simp [hnever])] at h
          exact absurd rfl h
    | none =>
      dsimp only
      cases hana : data.analysis with
      | none => exact ⟨by simp, fun _ h => absurd rfl h⟩
      | some analysis =>
        dsimp only
        constructor
        · split <;> simp
        · intro hnever h
          rw [if_neg (by simp [hnever])] at h
          exact absurd rfl h

/-- Witness for C4's amended statement: a concrete `never`-mode run on the
credit-exhausted path. -/
theorem C4_amended_at_most_one_comment_witness :
    (run inputsNever true (some fs1)
      ⟨false, some dExhausted⟩ none).comments.length ≤ 1
    ∧ runApiBranch ⟨false, some dExhausted⟩ = .creditExhausted := by
  have h4 : ¬ (collectFiles (some fs1) inputsNever.path 50).length = 0 := by
    simp [collectFiles, collectWalk, pushFile, extname, pathJoin,
      SUPPORTED_EXTENSIONS, fs1, inputsNever, inputs0]
  have h := C4_amended_at_most_one_comment inputsNever true (some fs1)
    ⟨false, some dExhausted⟩ none
  refine ⟨h.1, h.2 rfl ?_⟩
  rw [run_exhausted_path inputsNever true (some fs1) ⟨false, some dExhausted⟩
    none dExhausted "Credit limit reached" (by simp [inputsNever, inputs0])
    (by simp [inputsNever, inputs0]) rfl h4 rfl rfl rfl]
  simp

/-- C8: for every layer configuration, a disabled layer's key is absent
from the serialized `layers` payload (not bound to `false` or null), each
enabled non-code layer's key is bound to exactly its configured
parameters, and the always-enabled code layer is never serialized. -/
theorem C8_disabled_layers_omitted_from_payload (layers : LayerConfig) :
    (layersPayload layers).lookup "runtime" =
      (if layers.runtime.enabled then
        some (LayerParams.runtime layers.runtime.source layers.runtime.apiKey
          layers.runtime.eventsFile)
       else none)
    ∧ (layersPayload layers).lookup "benchmarks" =
      (if layers.benchmarks.enabled then
        some (LayerParams.benchmarks layers.benchmarks.framework)
       else none)
    ∧ (layersPayload layers).lookup "evals" =
      (if layers.evals.enabled then
        some (LayerParams.evals layers.evals.source layers.evals.apiKey)
       else none)
    ∧ (layersPayload layers).lookup "code" = none := by
  obtain ⟨⟨re, rs, rk, rf⟩, ⟨be, bf⟩, ⟨ee, es, ek⟩⟩ := layers
  cases re <;> cases be <;> cases ee <;> exact ⟨rfl, rfl, rfl, rfl⟩

end PeakInfer
